import Mathlib

/-!
Shallow embedding of the analytics and budget-evaluation layer of the
HomeBudget application.

Sources embedded here:
  * `src/client/src/pages/Budget.tsx` — `calculateBudgetProgress`
  * `src/server/routes.ts` — `getDashboardStats`, `getCategoryBreakdown`,
    `getSpendingTrends`
  * `src/unnamed/part_002` — `getProgressPercentage`

Timestamps are modelled as integers (milliseconds since the Unix epoch, in
the single local timezone the JS code runs in).  JS `Date` civil-field
arithmetic (`getMonth`, `setMonth`, …) and the Postgres `date_trunc`-style
month arithmetic are modelled with the standard civil-from-days /
days-from-civil conversions of the proleptic Gregorian calendar, which is
exactly the calendar both JS `Date` and Postgres implement.  Monetary
amounts are modelled as rationals (`ℚ`): the decimal columns hold exact
2-decimal values and the JS arithmetic on them is exact for the claims at
issue; ℚ keeps the ratio computations exact.
-/

namespace HomeBudget

/-! ### Civil (Gregorian) calendar arithmetic -/

/-- Days since 1970-01-01 of the civil date `(y, m, d)` with `m ∈ 1..12`,
proleptic Gregorian (Hinnant's `days_from_civil`). -/
def daysFromCivil (y m d : Int) : Int :=
  let y2 := if m ≤ 2 then y - 1 else y
  let era := y2.fdiv 400
  let yoe := y2 - era * 400
  let mp := if m > 2 then m - 3 else m + 9
  let doy := (153 * mp + 2).fdiv 5 + d - 1
  let doe := yoe * 365 + yoe.fdiv 4 - yoe.fdiv 100 + doy
  era * 146097 + doe - 719468

/-- Civil date `(y, m ∈ 1..12, d)` of a day count since 1970-01-01
(Hinnant's `civil_from_days`). -/
def civilFromDays (z : Int) : Int × Int × Int :=
  let z2 := z + 719468
  let era := z2.fdiv 146097
  let doe := z2.emod 146097
  let yoe := (doe - doe.fdiv 1460 + doe.fdiv 36524 - doe.fdiv 146096).fdiv 365
  let y := yoe + era * 400
  let doy := doe - (365 * yoe + yoe.fdiv 4 - yoe.fdiv 100)
  let mp := (5 * doy + 2).fdiv 153
  let d := doy - (153 * mp + 2).fdiv 5 + 1
  let m := if mp < 10 then mp + 3 else mp - 9
  (if m ≤ 2 then y + 1 else y, m, d)

def msPerDay : Int := 86400000

/-- `MakeDay` of JS `new Date(y, m, d)`: month `m` is 0-based and both `m`
and `d` may lie outside their ranges; JS normalises the year/month pair and
lets the day offset spill over (day overflow, not clamping). -/
def jsMakeDay (y m d : Int) : Int :=
  daysFromCivil (y + m.fdiv 12) (m.emod 12 + 1) 1 + (d - 1)

/-- Timestamp of JS `new Date(y, m, d)` (local midnight), `m` 0-based. -/
def jsDate (y m d : Int) : Int := jsMakeDay y m d * msPerDay

/-- Timestamp with a time of day, for transactions dated mid-day. -/
def jsDateTime (y m d hh mi : Int) : Int := jsDate y m d + (hh * 60 + mi) * 60000

def jsYear (t : Int) : Int := (civilFromDays (t.fdiv msPerDay)).1

/-- JS `getMonth()`: 0-based month. -/
def jsMonth (t : Int) : Int := (civilFromDays (t.fdiv msPerDay)).2.1 - 1

/-- JS `getDate()`: day of month, 1-based. -/
def jsDayOfMonth (t : Int) : Int := (civilFromDays (t.fdiv msPerDay)).2.2

/-- Milliseconds elapsed since local midnight. -/
def timeOfDay (t : Int) : Int := t.emod msPerDay

/-- JS `d.setDate(n)`: replace the day of month, keep year/month/time. -/
def jsSetDate (t n : Int) : Int :=
  jsMakeDay (jsYear t) (jsMonth t) n * msPerDay + timeOfDay t

/-- JS `d.setMonth(n)`: replace the (0-based) month, keep the day of month
and time; overflow spills into the following month. -/
def jsSetMonth (t n : Int) : Int :=
  jsMakeDay (jsYear t) n (jsDayOfMonth t) * msPerDay + timeOfDay t

/-- JS `d.setFullYear(n)`: replace the year, keep month/day/time. -/
def jsSetFullYear (t n : Int) : Int :=
  jsMakeDay n (jsMonth t) (jsDayOfMonth t) * msPerDay + timeOfDay t

/-! ### Data model (`src/shared/schema.ts`) -/

inductive TxType where
  | expense
  | income
deriving DecidableEq, Repr

/-- A row of the `expenses` table (fields the analytics layer reads). -/
structure Transaction where
  amount : ℚ
  type : TxType
  categoryId : Option String
  date : Int
deriving DecidableEq, Repr

structure Category where
  id : String
  name : String
  color : String
deriving DecidableEq, Repr

inductive BudgetPeriod where
  | weekly
  | monthly
  | yearly
deriving DecidableEq, Repr

structure Budget where
  amount : ℚ
  categoryId : Option String
  period : BudgetPeriod
  startDate : Int
  alertThreshold : ℚ
deriving DecidableEq, Repr

/-! ### Budget evaluator (`src/client/src/pages/Budget.tsx`,
`calculateBudgetProgress`) -/

structure BudgetProgress where
  spent : ℚ
  percentage : ℚ
  remaining : ℚ
  status : String
deriving DecidableEq, Repr

/-- The `endDate` computed by the `switch (budget.period)` block: a copy of
`startDate` advanced by `setDate(+7)` / `setFullYear(+1)` / `setMonth(+1)`
(the `default:` case of the switch coincides with `monthly`). -/
def budgetEndDate (b : Budget) : Int :=
  match b.period with
  | .weekly => jsSetDate b.startDate (jsDayOfMonth b.startDate + 7)
  | .yearly => jsSetFullYear b.startDate (jsYear b.startDate + 1)
  | .monthly => jsSetMonth b.startDate (jsMonth b.startDate + 1)

/-- The filter predicate of `categoryExpenses` in `calculateBudgetProgress`:
`expense.type === "expense" && expenseDate >= startDate &&
expenseDate <= endDate && (budget.categoryId ? expense.categoryId ===
budget.categoryId : true)`. -/
def budgetTxFilter (b : Budget) (e : Transaction) : Bool :=
  e.type == TxType.expense &&
    decide (b.startDate ≤ e.date) && decide (e.date ≤ budgetEndDate b) &&
    (match b.categoryId with
     | some c => e.categoryId == some c
     | none => true)

def calculateBudgetProgress (b : Budget) (expenses : List Transaction) :
    BudgetProgress :=
  let categoryExpenses := expenses.filter (budgetTxFilter b)
  let spent := (categoryExpenses.map (·.amount)).sum
  let percentage := if b.amount > 0 then spent / b.amount * 100 else 0
  let remaining := b.amount - spent
  let alertThreshold := b.alertThreshold * 100
  let status :=
    if percentage ≥ 100 then "over-budget"
    else if percentage ≥ alertThreshold then "warning"
    else "on-track"
  ⟨spent, percentage, remaining, status⟩

/-! ### Dashboard stats composer (`src/server/routes.ts`,
`getDashboardStats`) -/

/-- `new Date(now.getFullYear(), now.getMonth(), 1)`. -/
def firstDayThisMonth (now : Int) : Int := jsDate (jsYear now) (jsMonth now) 1

/-- `new Date(now.getFullYear(), now.getMonth() - 1, 1)`. -/
def firstDayLastMonth (now : Int) : Int := jsDate (jsYear now) (jsMonth now - 1) 1

/-- `new Date(now.getFullYear(), now.getMonth(), 0)`: midnight at the start
of the last day of the previous month. -/
def lastDayLastMonth (now : Int) : Int := jsDate (jsYear now) (jsMonth now) 0

/-- The `thisMonthExpenses` query: `type = 'expense' AND date >=
firstDayThisMonth` (no upper bound), summed with `COALESCE(SUM(..), 0)`. -/
def thisMonthExpensesOf (txns : List Transaction) (now : Int) : ℚ :=
  ((txns.filter fun t =>
      t.type == TxType.expense && decide (firstDayThisMonth now ≤ t.date)).map
    (·.amount)).sum

/-- The `thisMonthIncome` query: `type = 'income' AND date >=
firstDayThisMonth`. -/
def thisMonthIncomeOf (txns : List Transaction) (now : Int) : ℚ :=
  ((txns.filter fun t =>
      t.type == TxType.income && decide (firstDayThisMonth now ≤ t.date)).map
    (·.amount)).sum

/-- The `lastMonthExpenses` query: `type = 'expense' AND date BETWEEN
firstDayLastMonth AND lastDayLastMonth` (SQL `BETWEEN` is inclusive at both
ends). -/
def lastMonthExpensesOf (txns : List Transaction) (now : Int) : ℚ :=
  ((txns.filter fun t =>
      t.type == TxType.expense && decide (firstDayLastMonth now ≤ t.date) &&
        decide (t.date ≤ lastDayLastMonth now)).map
    (·.amount)).sum

/-- The `lastMonthIncome` query, same window as `lastMonthExpensesOf`. -/
def lastMonthIncomeOf (txns : List Transaction) (now : Int) : ℚ :=
  ((txns.filter fun t =>
      t.type == TxType.income && decide (firstDayLastMonth now ≤ t.date) &&
        decide (t.date ≤ lastDayLastMonth now)).map
    (·.amount)).sum

structure DashboardStats where
  totalBalance : ℚ
  thisMonthExpenses : ℚ
  thisMonthIncome : ℚ
  expenseChange : ℚ
  incomeChange : ℚ
  savingsRate : ℚ
deriving DecidableEq, Repr

def getDashboardStats (txns : List Transaction) (now : Int) : DashboardStats :=
  let thisMonthExp := thisMonthExpensesOf txns now
  let thisMonthInc := thisMonthIncomeOf txns now
  let lastMonthExp := lastMonthExpensesOf txns now
  let lastMonthInc := lastMonthIncomeOf txns now
  { totalBalance := thisMonthInc - thisMonthExp
    thisMonthExpenses := thisMonthExp
    thisMonthIncome := thisMonthInc
    expenseChange :=
      if lastMonthExp > 0 then (thisMonthExp - lastMonthExp) / lastMonthExp * 100 else 0
    incomeChange :=
      if lastMonthInc > 0 then (thisMonthInc - lastMonthInc) / lastMonthInc * 100 else 0
    savingsRate :=
      if thisMonthInc > 0 then (thisMonthInc - thisMonthExp) / thisMonthInc * 100 else 0 }

/-! ### Category breakdown (`src/server/routes.ts`, `getCategoryBreakdown`) -/

/-- The `switch (period)` block of `getCategoryBreakdown`; the `default:`
case resolves to the same start date as `"thisMonth"`. -/
def breakdownStartDate (period : String) (now : Int) : Int :=
  if period == "thisMonth" then jsDate (jsYear now) (jsMonth now) 1
  else if period == "lastMonth" then jsDate (jsYear now) (jsMonth now - 1) 1
  else if period == "thisYear" then jsDate (jsYear now) 0 1
  else jsDate (jsYear now) (jsMonth now) 1

/-- The API boundary (`registerRoutes`): `req.query.period as string ||
"thisMonth"`; JS `||` replaces a missing or empty-string query parameter,
and passes every other string through unchanged. -/
def apiPeriodParam (q : Option String) : String :=
  match q with
  | none => "thisMonth"
  | some s => if s == "" then "thisMonth" else s

/-- The rows feeding the breakdown query: `type = 'expense' AND date >=
startDate` (there is no upper bound in the query). -/
def breakdownFiltered (txns : List Transaction) (period : String) (now : Int) :
    List Transaction :=
  txns.filter fun t =>
    t.type == TxType.expense && decide (breakdownStartDate period now ≤ t.date)

/-- The `GROUP BY categoryId, name, color` result with the `LEFT JOIN` on
categories: one entry per distinct `categoryId` among the filtered rows,
carrying the joined category (if any), `SUM(amount)` and `COUNT(*)`. -/
def breakdownGroups (txns : List Transaction) (cats : List Category)
    (period : String) (now : Int) : List (Option Category × ℚ × Nat) :=
  let rows := breakdownFiltered txns period now
  ((rows.map (·.categoryId)).dedup).map fun k =>
    let g := rows.filter fun t => t.categoryId == k
    (k.bind fun kid => cats.find? fun c => c.id == kid,
      ((g.map (·.amount)).sum, g.length))

structure BreakdownRow where
  category : String
  amount : ℚ
  percentage : ℚ
  color : String
  transactionCount : Nat
deriving DecidableEq, Repr

def getCategoryBreakdown (txns : List Transaction) (cats : List Category)
    (period : String) (now : Int) : List BreakdownRow :=
  let groups := breakdownGroups txns cats period now
  let totalExpenses := (groups.map fun g => g.2.1).sum
  groups.map fun g =>
    { category := match g.1 with | some c => c.name | none => "Uncategorized"
      amount := g.2.1
      percentage := if totalExpenses > 0 then g.2.1 / totalExpenses * 100 else 0
      color := match g.1 with | some c => c.color | none => "#6B7280"
      transactionCount := g.2.2 }

/-! ### Spending trends (`src/server/routes.ts`, `getSpendingTrends`) -/

/-- Days of the civil month `m ∈ 1..12` of year `y`. -/
def daysInMonth (y m : Int) : Int :=
  if m = 2 then
    (if (y.emod 4 = 0 && y.emod 100 ≠ 0) || y.emod 400 = 0 then 29 else 28)
  else if m = 4 || m = 6 || m = 9 || m = 11 then 30 else 31

/-- Postgres `NOW() - INTERVAL 'n months'`: subtract `n` calendar months,
clamping the day of month to the length of the target month, keeping the
time of day. -/
def pgSubMonths (t n : Int) : Int :=
  let c := civilFromDays (t.fdiv msPerDay)
  let total := c.1 * 12 + (c.2.1 - 1) - n
  let y := total.fdiv 12
  let m := total.emod 12 + 1
  daysFromCivil y m (min c.2.2 (daysInMonth y m)) * msPerDay + timeOfDay t

/-- The grouping key `TO_CHAR(date, 'YYYY-MM')`, linearised as
`year * 12 + (month - 1)`; for 4-digit years the string ordering of
`'YYYY-MM'` coincides with the integer ordering of this key. -/
def monthKeyOf (t : Int) : Int :=
  let c := civilFromDays (t.fdiv msPerDay)
  c.1 * 12 + (c.2.1 - 1)

/-- The `WHERE` clause of the trends query:
`date >= NOW() - INTERVAL 'months months'`. -/
def trendFiltered (txns : List Transaction) (months now : Int) :
    List Transaction :=
  txns.filter fun t => decide (pgSubMonths now months ≤ t.date)

/-- The `GROUP BY TO_CHAR(date, 'YYYY-MM') ORDER BY TO_CHAR(date, 'YYYY-MM')`
skeleton: the distinct month keys of the filtered rows in ascending order.
Only months that occur in the data are produced. -/
def trendKeys (txns : List Transaction) (months now : Int) : List Int :=
  (((trendFiltered txns months now).map fun t => monthKeyOf t.date).dedup).mergeSort
    fun a b => decide (a ≤ b)

structure TrendRow where
  month : Int
  totalExpenses : ℚ
  totalIncome : ℚ
  netSavings : ℚ
deriving DecidableEq, Repr

def getSpendingTrends (txns : List Transaction) (months now : Int) :
    List TrendRow :=
  let rows := trendFiltered txns months now
  (trendKeys txns months now).map fun k =>
    let g := rows.filter fun t => monthKeyOf t.date == k
    let exp := (g.map fun t => if t.type == TxType.expense then t.amount else 0).sum
    let inc := (g.map fun t => if t.type == TxType.income then t.amount else 0).sum
    { month := k, totalExpenses := exp, totalIncome := inc,
      netSavings := inc - exp }

/-! ### Goal progress helper (`src/unnamed/part_002`,
`getProgressPercentage`) -/

/-- `if (target === 0) return 0; return Math.min(100, (current / target) *
100);` -/
def getProgressPercentage (current target : ℚ) : ℚ :=
  if target = 0 then 0 else min 100 (current / target * 100)

/-! ### Spec-side foil definition (for the `totalBalance` comparison) -/

/-- Modelled from the spec: the "all-time cumulative balance" that the spec
contrasts `totalBalance` with — total income minus total expenses over
every transaction, regardless of date. -/
def allTimeCumulativeBalance (txns : List Transaction) : ℚ :=
  ((txns.filter fun t => t.type == TxType.income).map (·.amount)).sum -
    ((txns.filter fun t => t.type == TxType.expense).map (·.amount)).sum

/-! ### Concrete instants and records used in scenarios -/

/-- The spec scenario budget: amount 200, monthly, start 2024-03-01,
alert threshold 0.80. -/
def marchBudget : Budget := ⟨200, none, .monthly, jsDate 2024 2 1, 4/5⟩

def tx180 : Transaction := ⟨180, .expense, none, jsDate 2024 2 5⟩

def tx220 : Transaction := ⟨220, .expense, none, jsDate 2024 2 5⟩

/-- An expense dated exactly at the end of `marchBudget`'s window
(2024-04-01 00:00). -/
def aprilBoundaryTx : Transaction := ⟨50, .expense, none, jsDate 2024 3 1⟩

/-- Reference instant 2024-03-15 12:00. -/
def midMarch : Int := jsDateTime 2024 2 15 12 0

/-! ### Helper lemmas on list sums -/

theorem sum_map_filter_split {α : Type} (p : α → Bool) (f : α → ℚ) (l : List α) :
    ((l.filter p).map f).sum + ((l.filter fun a => !(p a)).map f).sum =
      (l.map f).sum := by
  induction l with
  | nil => simp
  | cons a l ih =>
    rcases Bool.eq_false_or_eq_true (p a) with h | h <;>
      simp [List.filter_cons, h, ← ih] <;> ring

theorem sum_map_fiberwise {α κ : Type} [BEq κ] [LawfulBEq κ] (key : α → κ) (f : α → ℚ) :
    ∀ (ks : List κ) (l : List α), ks.Nodup → (∀ x ∈ l, key x ∈ ks) →
      (ks.map fun k => ((l.filter fun x => key x == k).map f).sum).sum =
        (l.map f).sum := by
  intro ks
  induction ks with
  | nil =>
    intro l _ hcov
    have hl : l = [] := by
      cases l with
      | nil => rfl
      | cons a l => exact absurd (hcov a (by simp)) (by simp)
    simp [hl]
  | cons k ks ih =>
    intro l hnd hcov
    have hk : k ∉ ks := (List.nodup_cons.mp hnd).1
    have hnd' : ks.Nodup := (List.nodup_cons.mp hnd).2
    have hmap : (ks.map fun k2 => ((l.filter fun x => key x == k2).map f).sum) =
        ks.map fun k2 =>
          (((l.filter fun x => !(key x == k)).filter fun x => key x == k2).map f).sum := by
      apply List.map_congr_left
      intro k2 hk2
      have hne : k2 ≠ k := fun he => hk (he ▸ hk2)
      have hfe : (l.filter fun x => key x == k2) =
          (l.filter fun x => (key x == k2) && !(key x == k)) := by
        apply List.filter_congr
        intro x _
        rcases Bool.eq_false_or_eq_true (key x == k2) with hx | hx
        · have hxk : key x = k2 := by simpa using hx
          simp [hx, hxk, hne]
        · simp [hx]
      rw [List.filter_filter, hfe]
    have hcov' : ∀ x ∈ (l.filter fun x => !(key x == k)), key x ∈ ks := by
      intro x hx
      rcases List.mem_filter.mp hx with ⟨hxl, hxk⟩
      have hxk' : key x ≠ k := by simpa using hxk
      rcases List.mem_cons.mp (hcov x hxl) with h | h
      · exact absurd h hxk'
      · exact h
    simp only [List.map_cons, List.sum_cons]
    rw [hmap, ih _ hnd' hcov']
    exact sum_map_filter_split (fun x => key x == k) f l

/-! ### Claim theorems -/

/-- C1: for every budget and transaction list, `calculateBudgetProgress`
classifies its status in the precedence order: `percentage ≥ 100` gives
"over-budget"; otherwise `percentage ≥ alertThreshold * 100` gives
"warning"; otherwise "on-track".  In the spec scenario (amount 200,
threshold 0.8, monthly from 2024-03-01) a spend of 180 yields "warning",
and a spend of 220 yields "over-budget" with remaining -20. -/
theorem C1_status_precedence :
    (∀ (b : Budget) (txns : List Transaction),
      (calculateBudgetProgress b txns).status =
        (if (calculateBudgetProgress b txns).percentage ≥ 100 then "over-budget"
         else if (calculateBudgetProgress b txns).percentage ≥ b.alertThreshold * 100 then
           "warning"
         else "on-track"))
    ∧ (calculateBudgetProgress marchBudget [tx180]).status = "warning"
    ∧ (calculateBudgetProgress marchBudget [tx220]).status = "over-budget"
    ∧ (calculateBudgetProgress marchBudget [tx220]).remaining = -20 := by
  have h180 : [tx180].filter (budgetTxFilter marchBudget) = [tx180] := by decide
  have h220 : [tx220].filter (budgetTxFilter marchBudget) = [tx220] := by decide
  refine ⟨fun b txns => rfl, ?_, ?_, ?_⟩
  · simp only [calculateBudgetProgress, h180]
    simp only [marchBudget, tx180, List.map_cons, List.map_nil, List.sum_cons,
      List.sum_nil]
    norm_num
  · simp only [calculateBudgetProgress, h220]
    simp only [marchBudget, tx220, List.map_cons, List.map_nil, List.sum_cons,
      List.sum_nil]
    norm_num
  · simp only [calculateBudgetProgress, h220]
    simp only [marchBudget, tx220, List.map_cons, List.map_nil, List.sum_cons,
      List.sum_nil]
    norm_num

/-- C6 counterexample: the budget window is not half-open at its end — a
transaction dated exactly at `startDate` plus one period (here 2024-04-01
00:00 for the monthly budget starting 2024-03-01) IS counted in `spent`
(the claim says it must not be). -/
theorem C6_counterexample_boundary_counted :
    aprilBoundaryTx.date = budgetEndDate marchBudget
    ∧ (calculateBudgetProgress marchBudget [aprilBoundaryTx]).spent = 50 := by
  have hf : [aprilBoundaryTx].filter (budgetTxFilter marchBudget) = [aprilBoundaryTx] := by
    decide
  refine ⟨by decide, ?_⟩
  simp only [calculateBudgetProgress, hf]
  simp only [aprilBoundaryTx, List.map_cons, List.map_nil, List.sum_cons,
    List.sum_nil]
  norm_num

/-- C6 (amended): the evaluation window of `calculateBudgetProgress` runs
from the budget's stored `startDate` to `startDate` advanced by one period
(weekly: day + 7; monthly: JS `setMonth(+1)`, one calendar month with day
overflow; yearly: one calendar year), and the window is CLOSED at both
ends: `spent` sums the expense transactions with `startDate ≤ date ≤
endDate` that match the budget's category, so a transaction dated exactly
at the window end is counted. -/
theorem C6_amended_closed_window :
    (∀ (b : Budget) (txns : List Transaction),
      (calculateBudgetProgress b txns).spent =
        ((txns.filter fun e =>
            e.type == TxType.expense && decide (b.startDate ≤ e.date) &&
              decide (e.date ≤ budgetEndDate b) &&
              (match b.categoryId with
               | some c => e.categoryId == some c
               | none => true)).map (·.amount)).sum)
    ∧ budgetEndDate marchBudget = jsDate 2024 3 1
    ∧ budgetEndDate ⟨200, none, .weekly, jsDate 2024 2 1, 4/5⟩ = jsDate 2024 2 8
    ∧ budgetEndDate ⟨200, none, .yearly, jsDate 2024 2 1, 4/5⟩ = jsDate 2025 2 1
    ∧ budgetEndDate ⟨200, none, .monthly, jsDate 2024 0 31, 4/5⟩ = jsDate 2024 2 2 :=
  ⟨fun b txns => rfl, by decide, by decide, by decide, by decide⟩

/-- C7: every ratio in the dashboard stats composer and the budget
evaluator returns 0 on a zero denominator: `expenseChange` is 0 when last
month's expenses are 0, `incomeChange` is 0 when last month's income is 0,
`savingsRate` is 0 when this month's income is 0, and the budget
`percentage` is 0 when the budget amount is 0 (the model uses `ℚ`, so no
NaN/Infinity can arise). -/
theorem C7_division_guards :
    ∀ (txns : List Transaction) (now : Int) (b : Budget),
      (lastMonthExpensesOf txns now = 0 →
        (getDashboardStats txns now).expenseChange = 0)
      ∧ (lastMonthIncomeOf txns now = 0 →
        (getDashboardStats txns now).incomeChange = 0)
      ∧ (thisMonthIncomeOf txns now = 0 →
        (getDashboardStats txns now).savingsRate = 0)
      ∧ (b.amount = 0 → (calculateBudgetProgress b txns).percentage = 0) := by
  intro txns now b
  refine ⟨fun h => ?_, fun h => ?_, fun h => ?_, fun h => ?_⟩
  · simp [getDashboardStats, h]
  · simp [getDashboardStats, h]
  · simp [getDashboardStats, h]
  · simp [calculateBudgetProgress, h]

/-- Witness for C7: a March 2024 snapshot with a 500 expense this month,
nothing last month, no income, and a zero-amount budget. -/
theorem C7_division_guards_witness :
    (getDashboardStats [⟨500, .expense, none, jsDate 2024 2 10⟩] midMarch).expenseChange = 0
    ∧ (getDashboardStats [⟨500, .expense, none, jsDate 2024 2 10⟩] midMarch).incomeChange = 0
    ∧ (getDashboardStats [⟨500, .expense, none, jsDate 2024 2 10⟩] midMarch).savingsRate = 0
    ∧ (calculateBudgetProgress ⟨0, none, .monthly, jsDate 2024 2 1, 4/5⟩
        [⟨500, .expense, none, jsDate 2024 2 10⟩]).percentage = 0 := by
  obtain ⟨h1, h2, h3, h4⟩ :=
    C7_division_guards [⟨500, .expense, none, jsDate 2024 2 10⟩] midMarch
      ⟨0, none, .monthly, jsDate 2024 2 1, 4/5⟩
  exact ⟨h1 (by decide), h2 (by decide), h3 (by decide), h4 rfl⟩

/-- C8: `totalBalance` is this month's income minus this month's expenses,
and differs from an all-time cumulative balance: on a set holding a 100
income this month and a 40 income in January 2020, `totalBalance` is 100
while the all-time net is 140. -/
theorem C8_totalBalance_is_monthly_net :
    (∀ (txns : List Transaction) (now : Int),
      (getDashboardStats txns now).totalBalance =
        thisMonthIncomeOf txns now - thisMonthExpensesOf txns now)
    ∧ (getDashboardStats
        [⟨100, .income, none, jsDate 2024 2 5⟩, ⟨40, .income, none, jsDate 2020 0 5⟩]
        midMarch).totalBalance ≠
      allTimeCumulativeBalance
        [⟨100, .income, none, jsDate 2024 2 5⟩, ⟨40, .income, none, jsDate 2020 0 5⟩] := by
  constructor
  · intro txns now; rfl
  · have hinc : thisMonthIncomeOf
        [⟨100, .income, none, jsDate 2024 2 5⟩, ⟨40, .income, none, jsDate 2020 0 5⟩]
        midMarch = 100 := by
      have hf : ([⟨100, .income, none, jsDate 2024 2 5⟩,
          ⟨40, .income, none, jsDate 2020 0 5⟩] : List Transaction).filter
            (fun t => t.type == TxType.income && decide (firstDayThisMonth midMarch ≤ t.date)) =
          [⟨100, .income, none, jsDate 2024 2 5⟩] := by decide
      simp [thisMonthIncomeOf, hf]
    have hexp : thisMonthExpensesOf
        [⟨100, .income, none, jsDate 2024 2 5⟩, ⟨40, .income, none, jsDate 2020 0 5⟩]
        midMarch = 0 := by decide
    have hall : allTimeCumulativeBalance
        [⟨100, .income, none, jsDate 2024 2 5⟩, ⟨40, .income, none, jsDate 2020 0 5⟩] = 140 := by
      simp [allTimeCumulativeBalance]
      norm_num
    have hbal : (getDashboardStats
        [⟨100, .income, none, jsDate 2024 2 5⟩, ⟨40, .income, none, jsDate 2020 0 5⟩]
        midMarch).totalBalance =
        thisMonthIncomeOf
          [⟨100, .income, none, jsDate 2024 2 5⟩, ⟨40, .income, none, jsDate 2020 0 5⟩]
          midMarch -
        thisMonthExpensesOf
          [⟨100, .income, none, jsDate 2024 2 5⟩, ⟨40, .income, none, jsDate 2020 0 5⟩]
          midMarch := rfl
    rw [hbal, hinc, hexp, hall]
    norm_num

/-- C10: with non-negative inputs `getProgressPercentage` stays in
`[0, 100]`; it is 0 when the target is 0 and otherwise clamps
`current / target * 100` at 100, so an over-funded goal shows at most
100%. -/
theorem C10_progress_clamped :
    ∀ current target : ℚ, 0 ≤ current → 0 ≤ target →
      (0 ≤ getProgressPercentage current target
        ∧ getProgressPercentage current target ≤ 100)
      ∧ (target = 0 → getProgressPercentage current target = 0)
      ∧ (target ≠ 0 →
        getProgressPercentage current target = min 100 (current / target * 100)) := by
  intro c t hc ht
  by_cases h : t = 0
  · refine ⟨?_, fun _ => by simp [getProgressPercentage, h], fun h0 => absurd h h0⟩
    simp [getProgressPercentage, h]
  · have hx : 0 ≤ c / t * 100 := by
      have hpos : 0 < t := lt_of_le_of_ne ht (Ne.symm h)
      positivity
    refine ⟨?_, fun h0 => absurd h0 h, fun _ => by simp [getProgressPercentage, h]⟩
    constructor
    · simp only [getProgressPercentage, h, if_false]
      exact le_min (by norm_num) hx
    · simp only [getProgressPercentage, h, if_false]
      exact min_le_left _ _

/-- Witness for C10: a goal at 150 of 100 displays exactly 100%. -/
theorem C10_progress_clamped_witness :
    ((0 ≤ getProgressPercentage 150 100 ∧ getProgressPercentage 150 100 ≤ 100)
      ∧ ((100:ℚ) = 0 → getProgressPercentage 150 100 = 0)
      ∧ ((100:ℚ) ≠ 0 →
        getProgressPercentage 150 100 = min 100 (150 / 100 * 100))) :=
  C10_progress_clamped 150 100 (by norm_num) (by norm_num)

/-! ### Trend lemmas -/

theorem trends_month_map (txns : List Transaction) (months now : Int) :
    (getSpendingTrends txns months now).map (·.month) = trendKeys txns months now := by
  simp only [getSpendingTrends, List.map_map]
  exact List.map_id _

/-- C9: the rows of `getSpendingTrends` are ordered chronologically
ascending by month key, and each row's `netSavings` is its `totalIncome`
minus its `totalExpenses`. -/
theorem C9_trends_sorted_and_net :
    ∀ (txns : List Transaction) (months now : Int),
      List.Sorted (· ≤ ·) ((getSpendingTrends txns months now).map (·.month))
      ∧ (getSpendingTrends txns months now).map (·.netSavings) =
          (getSpendingTrends txns months now).map fun r =>
            r.totalIncome - r.totalExpenses := by
  intro txns months now
  constructor
  · rw [trends_month_map, trendKeys]
    have hp := @List.sorted_mergeSort Int (fun a b => decide (a ≤ b))
      (fun a b c hab hbc =>
        decide_eq_true (le_trans (of_decide_eq_true hab) (of_decide_eq_true hbc)))
      (fun a b => by
        rcases le_total a b with h | h <;> simp [h])
      (((trendFiltered txns months now).map fun t => monthKeyOf t.date).dedup)
    exact hp.imp fun h => of_decide_eq_true h
  · simp only [getSpendingTrends, List.map_map]
    rfl

/-- Reference instant 2024-06-15 12:00 used for the trend scenario. -/
def midJune : Int := jsDateTime 2024 5 15 12 0

/-- Trend scenario: one expense in January 2024 and one in June 2024;
every month of February through May 2024 is empty. -/
def sparseTxns : List Transaction :=
  [⟨10, .expense, none, jsDate 2024 0 10⟩, ⟨20, .expense, none, jsDate 2024 5 1⟩]

/-- C2 counterexample: for the 6-month trailing window ending 2024-06-15,
March 2024 lies entirely inside the window (month key 2024·12+2 = 24290)
but `getSpendingTrends` emits only the months present in the data
(January = 24288 and June = 24293); no zero-sum row appears for March. -/
theorem C2_counterexample_march_missing :
    pgSubMonths midJune 6 ≤ jsDate 2024 2 1
    ∧ jsDate 2024 3 1 ≤ midJune
    ∧ (getSpendingTrends sparseTxns 6 midJune).map (·.month) = [24288, 24293]
    ∧ 24290 ∉ (getSpendingTrends sparseTxns 6 midJune).map (·.month) := by
  have hd : ((trendFiltered sparseTxns 6 midJune).map fun t => monthKeyOf t.date).dedup
      = [24288, 24293] := by decide
  have hkeys : trendKeys sparseTxns 6 midJune = [24288, 24293] := by
    rw [trendKeys, hd]
    exact List.mergeSort_of_sorted (by decide)
  refine ⟨by decide, by decide, ?_, ?_⟩
  · rw [trends_month_map, hkeys]
  · rw [trends_month_map, hkeys]
    decide

/-- C2 (amended): a month key appears in the output of `getSpendingTrends`
exactly when some transaction inside the trailing window falls in that
month; a calendar month of the window with no matching transactions is
omitted rather than reported with zero sums. -/
theorem C2_amended_only_populated_months :
    ∀ (txns : List Transaction) (months now k : Int),
      k ∈ (getSpendingTrends txns months now).map (·.month) ↔
        ∃ t ∈ txns, pgSubMonths now months ≤ t.date ∧ monthKeyOf t.date = k := by
  intro txns months now k
  rw [trends_month_map, trendKeys]
  simp only [List.mem_mergeSort, List.mem_dedup, List.mem_map, trendFiltered,
    List.mem_filter, decide_eq_true_iff]
  constructor
  · rintro ⟨t, ⟨ht, hw⟩, hk⟩
    exact ⟨t, ht, hw, hk⟩
  · rintro ⟨t, ht, hw, hk⟩
    exact ⟨t, ⟨ht, hw⟩, hk⟩

/-- C3 counterexample: the period resolution inside `getCategoryBreakdown`
does not fail on the unrecognized token "bogus" — it resolves the same
window start as "thisMonth" (the `default:` case of the switch), while the
API boundary passes the unrecognized token through unchanged, so the
fallback happens inside the resolver, not only at the boundary, and no
InvalidPeriodError is raised anywhere. -/
theorem C3_counterexample_default_inside_resolver :
    breakdownStartDate "bogus" midMarch = breakdownStartDate "thisMonth" midMarch
    ∧ apiPeriodParam (some "bogus") = "bogus" :=
  ⟨by decide, by decide⟩

/-- C3 (amended): every token other than "thisMonth"/"lastMonth"/"thisYear"
is resolved by `getCategoryBreakdown`'s own switch to the thisMonth window
start (the `default:` case); the API boundary replaces only a missing or
empty query parameter with "thisMonth" and passes all other tokens
through unchanged. -/
theorem C3_amended_default_in_resolver :
    (∀ (now : Int) (p : String),
      p ≠ "thisMonth" → p ≠ "lastMonth" → p ≠ "thisYear" →
        breakdownStartDate p now = jsDate (jsYear now) (jsMonth now) 1)
    ∧ apiPeriodParam none = "thisMonth"
    ∧ apiPeriodParam (some "") = "thisMonth"
    ∧ apiPeriodParam (some "bogus") = "bogus" := by
  refine ⟨?_, rfl, rfl, rfl⟩
  intro now p h1 h2 h3
  simp [breakdownStartDate, h1, h2, h3]

/-- Witness for the amended C3 at the concrete token "bogus". -/
theorem C3_amended_default_in_resolver_witness :
    breakdownStartDate "bogus" midMarch =
      jsDate (jsYear midMarch) (jsMonth midMarch) 1 :=
  C3_amended_default_in_resolver.1 midMarch "bogus" (by decide) (by decide)
    (by decide)

/-- An expense in the afternoon of the last day of February 2024. -/
def feb29Afternoon : Transaction := ⟨50, .expense, none, jsDateTime 2024 1 29 15 0⟩

/-- An expense on 2024-03-10, inside the current month of `midMarch`. -/
def march10Tx : Transaction := ⟨30, .expense, none, jsDate 2024 2 10⟩

/-- C4 (code bug, evaluated at the failing input): at now = 2024-03-15
12:00 the transaction dated 2024-02-29 15:00 lies inside the claimed
half-open window [first of February, first of March) yet contributes
nothing to the dashboard's last-month expense sum, because the SQL
`BETWEEN` upper bound is midnight at the start of 2024-02-29; and the
current-month transaction of 2024-03-10 passes the "lastMonth" filter of
`getCategoryBreakdown`, whose window has no upper bound at all. -/
theorem C4_failing_input_evaluation :
    firstDayLastMonth midMarch ≤ feb29Afternoon.date
    ∧ feb29Afternoon.date < firstDayThisMonth midMarch
    ∧ lastMonthExpensesOf [feb29Afternoon] midMarch = 0
    ∧ firstDayThisMonth midMarch ≤ march10Tx.date
    ∧ march10Tx ∈ breakdownFiltered [march10Tx] "lastMonth" midMarch :=
  ⟨by decide, by decide, by decide, by decide, by decide⟩

/-! ### Category breakdown lemmas -/

theorem breakdown_groups_sum (txns : List Transaction) (cats : List Category)
    (period : String) (now : Int) :
    ((breakdownGroups txns cats period now).map fun g => g.2.1).sum =
      ((breakdownFiltered txns period now).map (·.amount)).sum := by
  have hfib := sum_map_fiberwise (fun t : Transaction => t.categoryId)
    (fun t => t.amount)
    (((breakdownFiltered txns period now).map (·.categoryId)).dedup)
    (breakdownFiltered txns period now)
    (List.nodup_dedup _)
    (fun x hx => List.mem_dedup.mpr (List.mem_map_of_mem _ hx))
  have hmm : ((breakdownGroups txns cats period now).map fun g => g.2.1) =
      (((breakdownFiltered txns period now).map (·.categoryId)).dedup).map
        fun k => (((breakdownFiltered txns period now).filter
          fun t => t.categoryId == k).map fun t => t.amount).sum := by
    simp only [breakdownGroups, List.map_map]
    rfl
  rw [hmm]
  exact hfib

theorem breakdown_amount_map (txns : List Transaction) (cats : List Category)
    (period : String) (now : Int) :
    (getCategoryBreakdown txns cats period now).map (·.amount) =
      (breakdownGroups txns cats period now).map fun g => g.2.1 := by
  simp only [getCategoryBreakdown, List.map_map]
  rfl

theorem breakdown_percentage_def (txns : List Transaction) (cats : List Category)
    (period : String) (now : Int) :
    ∀ r ∈ getCategoryBreakdown txns cats period now,
      r.percentage =
        if ((breakdownGroups txns cats period now).map fun g => g.2.1).sum > 0
        then r.amount / ((breakdownGroups txns cats period now).map fun g => g.2.1).sum * 100
        else 0 := by
  intro r hr
  simp only [getCategoryBreakdown, List.mem_map] at hr
  rcases hr with ⟨g, _, rfl⟩
  rfl

/-- C5: over any transaction set whose amounts are non-negative (the data
model invariant on money fields), the amounts of the category breakdown
sum to the total of the expense-type transactions in the window, each
row's percentage is its amount divided by that window total times 100, and
every percentage is 0 when the window total is 0. -/
theorem C5_breakdown_partition :
    ∀ (txns : List Transaction) (cats : List Category) (period : String) (now : Int),
      (∀ t ∈ txns, 0 ≤ t.amount) →
      ((getCategoryBreakdown txns cats period now).map (·.amount)).sum =
        ((breakdownFiltered txns period now).map (·.amount)).sum
      ∧ (∀ r ∈ getCategoryBreakdown txns cats period now,
          r.percentage =
            r.amount / ((breakdownFiltered txns period now).map (·.amount)).sum * 100)
      ∧ (((breakdownFiltered txns period now).map (·.amount)).sum = 0 →
          ∀ r ∈ getCategoryBreakdown txns cats period now, r.percentage = 0) := by
  intro txns cats period now hpos
  have hnn : 0 ≤ ((breakdownFiltered txns period now).map (·.amount)).sum := by
    apply List.sum_nonneg
    intro x hx
    rcases List.mem_map.mp hx with ⟨t, ht, rfl⟩
    exact hpos t (List.mem_filter.mp ht).1
  refine ⟨?_, ?_, ?_⟩
  · rw [breakdown_amount_map]
    exact breakdown_groups_sum txns cats period now
  · intro r hr
    rw [breakdown_percentage_def txns cats period now r hr,
      breakdown_groups_sum txns cats period now]
    by_cases hT : 0 < ((breakdownFiltered txns period now).map (·.amount)).sum
    · rw [if_pos hT]
    · rw [if_neg hT, le_antisymm (not_lt.mp hT) hnn]
      simp
  · intro hS0 r hr
    rw [breakdown_percentage_def txns cats period now r hr,
      breakdown_groups_sum txns cats period now, hS0]
    simp

def foodCat : Category := ⟨"food", "Food", "#EF4444"⟩

def transportCat : Category := ⟨"transport", "Transport", "#3B82F6"⟩

/-- The spec scenario transactions for March 2024: Food 100 + 50,
Transport 30. -/
def marchTxns : List Transaction :=
  [⟨100, .expense, some "food", jsDate 2024 2 5⟩,
   ⟨50, .expense, some "food", jsDate 2024 2 20⟩,
   ⟨30, .expense, some "transport", jsDate 2024 2 10⟩]

/-- Witness for C5 at the spec scenario (Food 150 of 180, Transport 30 of
180, period "thisMonth" seen from 2024-03-15). -/
theorem C5_breakdown_partition_witness :
    ((getCategoryBreakdown marchTxns [foodCat, transportCat] "thisMonth" midMarch).map
        (·.amount)).sum =
      ((breakdownFiltered marchTxns "thisMonth" midMarch).map (·.amount)).sum
    ∧ (∀ r ∈ getCategoryBreakdown marchTxns [foodCat, transportCat] "thisMonth" midMarch,
        r.percentage =
          r.amount /
            ((breakdownFiltered marchTxns "thisMonth" midMarch).map (·.amount)).sum * 100)
    ∧ (((breakdownFiltered marchTxns "thisMonth" midMarch).map (·.amount)).sum = 0 →
        ∀ r ∈ getCategoryBreakdown marchTxns [foodCat, transportCat] "thisMonth" midMarch,
          r.percentage = 0) :=
  C5_breakdown_partition marchTxns [foodCat, transportCat] "thisMonth" midMarch
    (by decide)

end HomeBudget
